import Mathlib

/-!
Verification development for the claudezilla session-coordination layer.

The definitions below are a shallow embedding of the JavaScript sources:
  - `src/extension/background.js` : tab pool manager, ownership checks,
    screenshot mutex chain, page-readiness detector;
  - `src/host/index.js` : command gateway (auth token, allow-list,
    request correlation) and the focus-loop state machine.

Modelling conventions, used uniformly:
  - a JavaScript value that may be `undefined`/`null` is an `Option`;
  - JavaScript truthiness of strings and numbers is made explicit
    (`none` and the empty string are falsy; the number 0 is falsy);
  - thrown `Error` objects are the constructors of an error type whose
    fields are exactly the data interpolated into the thrown message;
  - calls into the browser API (`browser.tabs.remove`, `browser.tabs.create`,
    `browser.windows.remove`, ...) are recorded as an ordered effect list and
    are assumed to succeed (their failure modes are environmental);
  - wall-clock time is a `Nat` of milliseconds threaded explicitly.
-/

namespace Claudezilla

/-- JavaScript truthiness of an optional string value
(`undefined`, `null` and the empty string are falsy). -/
def jsTruthyStr : Option String → Bool
  | none => false
  | some s => s ≠ ""

/-- JavaScript truthiness of an optional numeric value
(`undefined`, `null` and `0` are falsy). -/
def jsTruthyNat : Option Nat → Bool
  | none => false
  | some n => n ≠ 0

abbrev TabId := Nat
abbrev OwnerId := String

/-- One entry of the tab pool (`claudezillaWindow.tabs` in background.js):
the browser-assigned tab id and the creating agent
(the string "unknown" is the legacy sentinel owner). -/
structure TabEntry where
  tabId : TabId
  ownerId : OwnerId
deriving Repr, DecidableEq

/-- The `claudezillaWindow` object of background.js (the fields the
coordination layer reads: window id and ordered tab list). -/
structure WindowState where
  windowId : Nat
  tabs : List TabEntry
deriving Repr, DecidableEq

/-- The mutable background-script globals relevant to the tab pool:
`claudezillaWindow` (absent when `null`) and `activeTabId`. -/
structure BgState where
  window : Option WindowState
  activeTabId : Option TabId
deriving Repr, DecidableEq

/-- `MAX_TABS` from background.js line 26. -/
def MAX_TABS : Nat := 10

/-- Initial background state: no window, no active tab. -/
def initialBgState : BgState := { window := none, activeTabId := none }

/-- The distinct `Error`s thrown by the tab-pool code paths; each
constructor carries exactly the data interpolated into the message of the
corresponding `throw` in background.js. -/
inductive BgError where
  /-- "No Claudezilla window active" / "No Claudezilla window to close". -/
  | noWindow : BgError
  /-- "Tab NNN not found in Claudezilla window". -/
  | tabNotFound (tabId : TabId) : BgError
  /-- "OWNERSHIP: Cannot OP tab NNN (owned by X, you are Y)"
  from `verifyTabOwnership`. -/
  | ownership (operation : String) (tabId : TabId) (owner requester : OwnerId) : BgError
  /-- "tabId is required" from the closeTab handler. -/
  | tabIdRequired : BgError
  /-- "agentId is required for tab close operations" from the closeTab handler. -/
  | agentIdRequired : BgError
  /-- "OWNERSHIP: Tab NNN was created by X. You (Y) cannot close another
  agents tab" from the closeTab handler. -/
  | closeTabOwnership (tabId : TabId) (owner requester : OwnerId) : BgError
  /-- "OWNERSHIP: Cannot close window - other agents have tabs open: ..."
  from the closeWindow handler, carrying the listed other owners. -/
  | closeWindowOwnership (otherOwners : List OwnerId) : BgError
  /-- "Screenshot race: tab NNN was switched away during capture". -/
  | screenshotRace (tabId : TabId) : BgError
deriving Repr, DecidableEq

/-- Browser API side effects performed by the pool operations, in program
order (`browser.tabs.remove`, `browser.tabs.create`, `browser.windows.remove`). -/
inductive BrowserEffect where
  | removeTab (tabId : TabId) : BrowserEffect
  | createTab (tabId : TabId) : BrowserEffect
  | removeWindow (windowId : Nat) : BrowserEffect
deriving Repr, DecidableEq

/-- `verifyTabOwnership(tabId, agentId, operation)`, background.js lines
92-106: requires a window, requires the tab to be pooled, and denies when
the entry has a real owner, the agent id is truthy, and they differ. -/
def verifyTabOwnership (st : BgState) (tabId : TabId) (agentId : Option OwnerId)
    (operation : String) : Except BgError TabEntry :=
  match st.window with
  | none => .error .noWindow
  | some w =>
    match w.tabs.find? (fun t => t.tabId == tabId) with
    | none => .error (.tabNotFound tabId)
    | some tabEntry =>
      if tabEntry.ownerId ≠ "unknown" ∧ jsTruthyStr agentId ∧ tabEntry.ownerId ≠ agentId.getD "" then
        .error (.ownership operation tabId tabEntry.ownerId (agentId.getD ""))
      else
        .ok tabEntry

/-- The ownership gate shared verbatim by every command handler that can
target a specific tab (navigate, getContent, click, type, screenshot,
scroll, waitFor, evaluate, getElementInfo, getPageState,
getAccessibilitySnapshot, pressKey, getConsoleLogs, getNetworkRequests):
`if (targetTab && agentId) verifyTabOwnership(targetTab, agentId, op)`. -/
def tabTargetGate (st : BgState) (targetTab : Option TabId) (agentId : Option OwnerId)
    (operation : String) : Except BgError Unit :=
  if jsTruthyNat targetTab ∧ jsTruthyStr agentId then
    (verifyTabOwnership st (targetTab.getD 0) agentId operation).map fun _ => ()
  else
    .ok ()

/-- The operation names passed to `verifyTabOwnership` by the tab-targeting
command handlers in background.js. -/
def targetedOperations : List String :=
  ["navigate", "read content from", "click in", "type in", "screenshot",
   "read console from", "read network from", "scroll in", "wait in",
   "evaluate in", "inspect element in", "read page state from",
   "read accessibility from", "send keys to"]

/-- Result object of the createWindow handler (background.js lines 703-712);
`closedOldestTab` is `null` when no eviction happened. -/
structure CreateResult where
  windowId : Nat
  tabId : TabId
  ownerId : OwnerId
  tabCount : Nat
  isNewWindow : Bool
  closedOldestTab : Option TabId
deriving Repr, DecidableEq

/-- `const ownerId = agentId || 'unknown'` (background.js line 610). -/
def effectiveOwner (agentId : Option OwnerId) : OwnerId :=
  if jsTruthyStr agentId then agentId.getD "" else "unknown"

/-- The createWindow handler, background.js lines 605-714 (`case 'createWindow'`).
`windowValid` models whether `browser.windows.get(claudezillaWindow.windowId)`
still succeeds (the stale-window re-check at lines 620-628); `newWindowId` and
`newTabId` are the browser-assigned identifiers of the window/tab that
`browser.windows.create` / `browser.tabs.create` would return.  When the pool
is full the oldest entry (`tabs.shift()`) is removed and its underlying tab is
closed (`browser.tabs.remove`) before the new tab is created; the new tab is
always made active. -/
def createWindow (st : BgState) (agentId : Option OwnerId) (windowValid : Bool)
    (newWindowId : Nat) (newTabId : TabId) :
    BgState × CreateResult × List BrowserEffect :=
  let ownerId := effectiveOwner agentId
  match st.window with
  | some w =>
    if windowValid then
      -- reuse existing window; evict oldest first when at capacity
      let (closedTabId, remaining, evictEffects) :=
        if w.tabs.length ≥ MAX_TABS then
          (w.tabs.head?.map TabEntry.tabId, w.tabs.tail,
           (w.tabs.head?.map fun t => BrowserEffect.removeTab t.tabId).toList)
        else
          (none, w.tabs, [])
      let newTabs := remaining ++ [⟨newTabId, ownerId⟩]
      ({ window := some { w with tabs := newTabs }, activeTabId := some newTabId },
       { windowId := w.windowId, tabId := newTabId, ownerId := ownerId,
         tabCount := newTabs.length, isNewWindow := false,
         closedOldestTab := closedTabId },
       evictEffects ++ [.createTab newTabId])
    else
      -- window vanished: reset and fall through to fresh-window creation
      ({ window := some { windowId := newWindowId, tabs := [⟨newTabId, ownerId⟩] },
         activeTabId := some newTabId },
       { windowId := newWindowId, tabId := newTabId, ownerId := ownerId,
         tabCount := 1, isNewWindow := true, closedOldestTab := none },
       [.createTab newTabId])
  | none =>
    ({ window := some { windowId := newWindowId, tabs := [⟨newTabId, ownerId⟩] },
       activeTabId := some newTabId },
     { windowId := newWindowId, tabId := newTabId, ownerId := ownerId,
       tabCount := 1, isNewWindow := true, closedOldestTab := none },
     [.createTab newTabId])

/-- Result object of the closeTab handler (background.js lines 758-764). -/
structure CloseTabResult where
  tabId : TabId
  tabCount : Nat
deriving Repr, DecidableEq

/-- The closeTab handler, background.js lines 716-766 (`case 'closeTab'`).
Requires a truthy tabId and agentId, a live window and a pooled entry; denies
unless the entry is owned by "unknown" or by the requester; on success splices
the entry out, closes the underlying tab, and if the closed tab was active
re-designates the most-recently-inserted remaining entry (or none) as active.
The returned state is the post-call global state: a thrown error leaves the
globals untouched because every check precedes the first mutation. -/
def closeTab (st : BgState) (tabId : Option TabId) (agentId : Option OwnerId) :
    BgState × Except BgError CloseTabResult × List BrowserEffect :=
  if ¬ jsTruthyNat tabId then (st, .error .tabIdRequired, [])
  else if ¬ jsTruthyStr agentId then (st, .error .agentIdRequired, [])
  else
    match st.window with
    | none => (st, .error .noWindow, [])
    | some w =>
      let closeTabId := tabId.getD 0
      match w.tabs.find? (fun t => t.tabId == closeTabId) with
      | none => (st, .error (.tabNotFound closeTabId), [])
      | some tabEntry =>
        if tabEntry.ownerId ≠ "unknown" ∧ tabEntry.ownerId ≠ agentId.getD "" then
          (st, .error (.closeTabOwnership closeTabId tabEntry.ownerId (agentId.getD "")), [])
        else
          let newTabs := w.tabs.eraseP (fun t => t.tabId == closeTabId)
          let newActive :=
            if st.activeTabId = some closeTabId then
              (newTabs.getLast?.map TabEntry.tabId)
            else st.activeTabId
          ({ window := some { w with tabs := newTabs }, activeTabId := newActive },
           .ok { tabId := closeTabId, tabCount := newTabs.length },
           [.removeTab closeTabId])

/-- Insertion-ordered set formation, the semantics of `new Set(list)` in
the closeWindow handler (first occurrence kept, order preserved). -/
def jsSet (xs : List String) : List String :=
  xs.foldl (fun s x => if x ∈ s then s else s ++ [x]) []

/-- Result object of the closeWindow handler (background.js line 792). -/
structure CloseWindowResult where
  windowId : Nat
  tabsClosed : Nat
deriving Repr, DecidableEq

/-- The closeWindow handler, background.js lines 768-794 (`case 'closeWindow'`).
Collects the distinct non-"unknown" owners; throws the ownership error only
when `hasMultipleOwners && !isOnlyOwner && agentId` holds (note that
`hasMultipleOwners` already forces `isOnlyOwner` to be false); otherwise
clears the globals and removes the window. -/
def closeWindow (st : BgState) (agentId : Option OwnerId) :
    BgState × Except BgError CloseWindowResult × List BrowserEffect :=
  match st.window with
  | none => (st, .error .noWindow, [])
  | some w =>
    let tabOwners := jsSet ((w.tabs.map TabEntry.ownerId).filter (fun o => o ≠ "unknown"))
    let hasMultipleOwners := tabOwners.length > 1
    let isOnlyOwner := tabOwners.length = 0 ∨
      (tabOwners.length = 1 ∧ (agentId.getD "") ∈ tabOwners)
    if hasMultipleOwners ∧ ¬ isOnlyOwner ∧ jsTruthyStr agentId then
      (st, .error (.closeWindowOwnership (tabOwners.filter (fun o => o ≠ agentId.getD ""))), [])
    else
      ({ window := none, activeTabId := none },
       .ok { windowId := w.windowId, tabsClosed := w.tabs.length },
       [.removeWindow w.windowId])

/-- The inputs of one createWindow call: requesting agent, whether the
tracked window is still valid, and the browser-assigned fresh identifiers. -/
structure CreateInput where
  agentId : Option OwnerId
  windowValid : Bool
  newWindowId : Nat
  newTabId : TabId
deriving Repr, DecidableEq

/-- Run a sequence of createWindow calls from a starting state, keeping only
the evolving global state. -/
def runCreates (st : BgState) (ops : List CreateInput) : BgState :=
  ops.foldl (fun s op => (createWindow s op.agentId op.windowValid op.newWindowId op.newTabId).1) st

/-- Number of pooled tabs in a background state. -/
def poolSize (st : BgState) : Nat :=
  match st.window with
  | none => 0
  | some w => w.tabs.length

/-! ## Page readiness detector (`waitForPageReady`, background.js lines 242-337) -/

/-- The fields of a `getTabNetworkStatus` result that the detector reads
(`isIdle` is `pending === 0`, `isCriticalIdle` is `criticalPending === 0`). -/
structure NetStatus where
  pending : Nat
  criticalPending : Nat
  visualPending : Nat
deriving Repr, DecidableEq

/-- The environment the detector observes: the network status reported by
`getTabNetworkStatus` at each absolute time, the actual duration of each
`setTimeout(25)` sleep started at a given time (at least 25 ms in reality,
clamped below by 25 in the model), the duration of the
`executeInTab(..., 'checkPageReadiness')` round trip, and whether that call
succeeds.  Status reads, bookkeeping and timeline appends are modelled as
instantaneous; time advances at the sleeps and the render check. -/
structure ReadyEnv where
  status : Nat → NetStatus
  pollDelay : Nat → Nat
  renderDelay : Nat
  renderOk : Bool

/-- One timeline record `{t: Date.now() - startTime, event, ...}`; the extra
observability payload fields do not influence any claim and are elided. -/
structure TLEvent where
  t : Nat
  event : String
deriving Repr, DecidableEq

/-- Result of `waitForPageReady`. -/
structure ReadyResult where
  totalWaitMs : Nat
  timeline : List TLEvent
  timedOut : Bool
deriving Repr, DecidableEq

/-- Phase 1 of the detector (background.js lines 277-297): poll while the
elapsed time is below `maxWait`; exit logging `critical_idle` once no
critical request is pending, or `critical_timeout` after
`3 * idleThreshold` ms without observed critical activity; otherwise sleep
25 ms and repeat.  Returns the current time and the extended timeline. -/
def phase1 (env : ReadyEnv) (startTime maxWait idleThreshold : Nat)
    (now lastActivity : Nat) (tl : List TLEvent) : Nat × List TLEvent :=
  if h : now - startTime < maxWait then
    let status := env.status now
    if status.criticalPending = 0 then
      (now, tl ++ [⟨now - startTime, "critical_idle"⟩])
    else
      let lastActivity := if status.criticalPending > 0 then now else lastActivity
      if now - lastActivity > idleThreshold * 3 then
        (now, tl ++ [⟨now - startTime, "critical_timeout"⟩])
      else
        phase1 env startTime maxWait idleThreshold
          (now + max 25 (env.pollDelay now)) lastActivity tl
  else
    (now, tl)
termination_by startTime + maxWait - now
decreasing_by
  have h25 : 25 ≤ max 25 (env.pollDelay now) := le_max_left _ _
  omega

/-- Phase 2 polling loop of the detector (background.js lines 304-313): poll
while the elapsed time since `visualStart` is below `visualMaxWait`; exit
logging `visual_idle` once no request at all is pending; otherwise sleep
25 ms and repeat. -/
def phase2loop (env : ReadyEnv) (visualStart visualMaxWait : Nat)
    (now : Nat) (startTime : Nat) (tl : List TLEvent) : Nat × List TLEvent :=
  if h : now - visualStart < visualMaxWait then
    let status := env.status now
    if status.pending = 0 then
      (now, tl ++ [⟨now - startTime, "visual_idle"⟩])
    else
      phase2loop env visualStart visualMaxWait
        (now + max 25 (env.pollDelay now)) startTime tl
  else
    (now, tl)
termination_by visualStart + visualMaxWait - now
decreasing_by
  have h25 : 25 ≤ max 25 (env.pollDelay now) := le_max_left _ _
  omega

/-- The render-settlement check shared by the fast path and phase 3
(background.js lines 266-271 and 322-327): one `checkPageReadiness` round
trip, logging `render_settled` on success and `render_check_failed` when the
content-script call throws. -/
def renderCheck (env : ReadyEnv) (startTime now : Nat) (tl : List TLEvent) :
    Nat × List TLEvent :=
  let now := now + env.renderDelay
  (now, tl ++ [⟨now - startTime,
    if env.renderOk then "render_settled" else "render_check_failed"⟩])

/-- `waitForPageReady(tabId, options)`, background.js lines 242-337.
Fast path when the initial status is fully idle (always reports
`timedOut: false`); otherwise phase 1 (critical resources), optional phase 2
(visual resources, capped at `min(3000, remaining budget)` with a
`visual_timeout` log when the cap was reached), phase 3 (render check), and
the final result with `timedOut := totalWait >= maxWait`. -/
def waitForPageReady (env : ReadyEnv) (startTime : Nat)
    (maxWait : Nat := 10000) (idleThreshold : Nat := 150)
    (requireVisualIdle : Bool := true) : ReadyResult :=
  let tl : List TLEvent := [⟨0, "start"⟩]
  let initialStatus := env.status startTime
  if initialStatus.pending = 0 then
    let p0 := renderCheck env startTime startTime (tl ++ [⟨0, "already_idle"⟩])
    let totalWait := p0.1 - startTime
    { totalWaitMs := totalWait, timeline := p0.2 ++ [⟨totalWait, "complete"⟩],
      timedOut := false }
  else
    let p1 := phase1 env startTime maxWait idleThreshold startTime startTime tl
    let p2 :=
      if requireVisualIdle then
        let visualStart := p1.1
        let visualMaxWait := min 3000 (maxWait - (p1.1 - startTime))
        let pl := phase2loop env visualStart visualMaxWait p1.1 startTime p1.2
        if pl.1 - visualStart ≥ visualMaxWait then
          (pl.1, pl.2 ++ [⟨pl.1 - startTime, "visual_timeout"⟩])
        else pl
      else p1
    let p3 := renderCheck env startTime p2.1 p2.2
    let totalWait := p3.1 - startTime
    { totalWaitMs := totalWait, timeline := p3.2 ++ [⟨totalWait, "complete"⟩],
      timedOut := decide (totalWait ≥ maxWait) }

/-! ## Screenshot mutex chain (`screenshotLock`, background.js lines 30-32 and 922-1032) -/

/-- A capture ticket: the tab it targets (absent means
"the currently active tab") and whether readiness detection is skipped.
Format/quality/scale options do not influence which tab is visible and are
elided. -/
structure Ticket where
  requestedTabId : Option TabId
  skipReadiness : Bool
deriving Repr, DecidableEq

/-- The observable outcome of one ticket: either a capture recording which
tab was visible at the capture step, or one of the failure paths of the
ticket body. -/
inductive CaptureOutcome where
  /-- `captureVisibleTab` ran; `visibleAtCapture` is the active tab at that
  moment and `reportedTabId` is the `tabId` field of the response. -/
  | captured (reportedTabId : Option TabId) (visibleAtCapture : Option TabId)
  /-- `getSession` threw: no live window. -/
  | noSession
  /-- the requested tab is not in the pool. -/
  | tabNotFound (tabId : TabId)
deriving Repr, DecidableEq

/-- The body of one screenshot ticket (the function chained onto
`screenshotLock`, background.js lines 951-1026): resolve the session,
resolve the target tab (`requestedTabId || activeTabId`), reject targets
outside the pool, switch the target to be the active tab when it is not
already (running the readiness detector unless skipped), and capture the
visible tab.  The race guard at lines 976-979 re-reads the active tab after
the wait; with no interference between the switch and the guard (the
serialization being established) it sees the tab the ticket just activated.
Readiness waiting does not change which tab is visible and is elided here;
it is modelled separately by `waitForPageReady`. -/
def runScreenshotTicket (st : BgState) (t : Ticket) : BgState × CaptureOutcome :=
  match st.window with
  | none => (st, .noSession)
  | some w =>
    let tabIds := w.tabs.map TabEntry.tabId
    let targetTabId := if jsTruthyNat t.requestedTabId then t.requestedTabId else st.activeTabId
    if jsTruthyNat t.requestedTabId ∧ ¬ (t.requestedTabId.getD 0) ∈ tabIds then
      (st, .tabNotFound (t.requestedTabId.getD 0))
    else if jsTruthyNat targetTabId ∧ targetTabId ≠ st.activeTabId then
      -- switch the target tab to be the visible one, then capture
      let st := { st with activeTabId := targetTabId }
      (st, .captured targetTabId st.activeTabId)
    else
      (st, .captured targetTabId st.activeTabId)

/-- Sequential execution of a list of tickets, each running to completion
before the next starts; a failed ticket leaves the chain alive
(`screenshotLock = screenshotPromise.catch(() => {})`) so every ticket
produces an outcome. -/
def runTickets (st : BgState) (ts : List Ticket) : BgState × List CaptureOutcome :=
  match ts with
  | [] => (st, [])
  | t :: rest =>
    let (st, out) := runScreenshotTicket st t
    let (st, outs) := runTickets st rest
    (st, out :: outs)

/-- An interleaving of the atomic steps of `n` promise-chained jobs, job `i`
having `steps i` steps: `pos i s` is the global position of step `s` of job
`i`.  `stepOrder` is program order within a job; `chained` is the semantics
of `lock.then(job)` with a trailing `catch`: the first step of job `i+1`
runs only once job `i` has settled, i.e. after its last step, whether it
fulfilled or rejected. -/
structure ChainSchedule (n : Nat) (steps : Nat → Nat) where
  pos : Nat → Nat → Nat
  stepOrder : ∀ i s s', i < n → s < s' → s' < steps i → pos i s < pos i s'
  chained : ∀ i, i + 1 < n → pos i (steps i - 1) < pos (i + 1) 0

/-! ## Focus-loop state machine (`handleLoopCommand`, host/index.js lines 88-230) -/

/-- `MAX_ITERATIONS_LIMIT` from host/index.js line 42. -/
def MAX_ITERATIONS_LIMIT : Int := 10000

/-- `MAX_LOOP_DURATION_MS` from host/index.js line 43 (1 hour). -/
def MAX_LOOP_DURATION_MS : Nat := 60 * 60 * 1000

/-- `MAX_COMPLETION_PROMISE_LENGTH` from host/index.js line 44. -/
def MAX_COMPLETION_PROMISE_LENGTH : Nat := 1000

/-- The `loopState` singleton of host/index.js lines 91-98; `startedAt` is a
millisecond timestamp (the ISO string of the source parsed back to epoch
milliseconds on every read). -/
structure LoopState where
  active : Bool
  prompt : String
  iteration : Nat
  maxIterations : Nat
  completionPromise : Option String
  startedAt : Option Nat
deriving Repr, DecidableEq

/-- The reset/initial loop state (all-false record assigned at startup, on
stop and on wall-clock timeout). -/
def emptyLoopState : LoopState :=
  { active := false, prompt := "", iteration := 0, maxIterations := 0,
    completionPromise := none, startedAt := none }

/-- `isLoopTimedOut()`, host/index.js lines 124-128: false unless the loop
is active with a start stamp and strictly more than `MAX_LOOP_DURATION_MS`
has elapsed. -/
def isLoopTimedOut (ls : LoopState) (now : Nat) : Bool :=
  match ls.startedAt with
  | none => false
  | some t0 => ls.active && decide (now - t0 > MAX_LOOP_DURATION_MS)

/-- The request fields the host itself reads out of `params`
(`prompt`, `maxIterations`, `completionPromise`); `maxIterations` is the
result of `Number(maxIterations) || 0`, kept as an `Int` so that the
negative-bound check of the source is representable. -/
structure CliParams where
  prompt : Option String
  maxIterations : Int
  completionPromise : Option String
deriving Repr, DecidableEq

/-- Default params: every field absent (`Number(undefined) || 0` gives 0). -/
def CliParams.empty : CliParams :=
  { prompt := none, maxIterations := 0, completionPromise := none }

/-- The per-command result objects of the loop handler callbacks. -/
inductive LoopResult where
  /-- startLoop replies with a copy of the new loop state. -/
  | state (ls : LoopState)
  /-- stopLoop replies `{stopped: wasActive}`. -/
  | stopped (wasActive : Bool)
  /-- getLoopState replies with the state plus the `timedOut` flag. -/
  | stateWithTimeout (ls : LoopState) (timedOut : Bool)
  /-- incrementLoopIteration replies `{iteration}`. -/
  | iterationCount (n : Nat)
deriving Repr, DecidableEq

/-- `handleLoopCommand(command, params, callback)`, host/index.js lines
134-230: first the wall-clock timeout check resets a timed-out active loop,
then the command dispatch.  The returned pair is the post-call `loopState`
and the argument of the single `callback` invocation
(`.error msg` stands for `{success:false, error: msg}`). -/
def handleLoopCommand (ls0 : LoopState) (now : Nat) (command : String)
    (p : CliParams) : LoopState × Except String LoopResult :=
  let ls := if ls0.active ∧ isLoopTimedOut ls0 now then emptyLoopState else ls0
  if command = "startLoop" then
    if ls.active then
      (ls, .error "Loop already active. Stop current loop first.")
    else if ¬ jsTruthyStr p.prompt then
      (ls, .error "Prompt is required and must be a string")
    else if p.maxIterations < 0 ∨ p.maxIterations > MAX_ITERATIONS_LIMIT then
      (ls, .error "maxIterations must be 0-10000")
    else if (p.completionPromise.map String.length).getD 0 > MAX_COMPLETION_PROMISE_LENGTH then
      (ls, .error "completionPromise exceeds 1000 character limit")
    else
      let started : LoopState :=
        { active := true, prompt := p.prompt.getD "", iteration := 0,
          maxIterations := p.maxIterations.toNat,
          completionPromise := if jsTruthyStr p.completionPromise then p.completionPromise else none,
          startedAt := some now }
      (started, .ok (.state started))
  else if command = "stopLoop" then
    (emptyLoopState, .ok (.stopped ls.active))
  else if command = "getLoopState" then
    (ls, .ok (.stateWithTimeout ls (isLoopTimedOut ls now)))
  else if command = "incrementLoopIteration" then
    if ls.active then
      let ls := { ls with iteration := ls.iteration + 1 }
      (ls, .ok (.iterationCount ls.iteration))
    else
      (ls, .ok (.iterationCount ls.iteration))
  else
    (ls, .error ("Unknown loop command: " ++ command))

/-! ## Command gateway (`handleCliCommand`, host/index.js lines 236-273) -/

/-- `ALLOWED_COMMANDS` from host/index.js lines 50-85. -/
def ALLOWED_COMMANDS : List String :=
  ["ping", "version", "canNavigate", "navigate", "getActiveTab", "getContent",
   "click", "type", "screenshot", "getTabs", "closeTab", "createWindow",
   "closeWindow", "getWindows", "resizeWindow", "setViewport",
   "getConsoleLogs", "getNetworkRequests", "scroll", "waitFor", "evaluate",
   "getElementInfo", "getPageState", "getAccessibilitySnapshot", "pressKey",
   "startLoop", "stopLoop", "getLoopState", "incrementLoopIteration"]

/-- `LOOP_COMMANDS` from host/index.js line 250. -/
def LOOP_COMMANDS : List String :=
  ["startLoop", "stopLoop", "getLoopState", "incrementLoopIteration"]

/-- The host-process state the gateway touches: the startup-generated
`SOCKET_AUTH_TOKEN`, the loop singleton, and the correlation ids of the
outstanding `pendingCliRequests`. -/
structure HostState where
  token : String
  loopState : LoopState
  pending : List String
deriving Repr, DecidableEq

/-- The observable outcome of one `handleCliCommand` call: the new host
state, the synchronous callback argument when the callback fired
immediately (`none` when the response was deferred to the correlation
path), and the `{id, type:'command', command, params}` frame forwarded to
the extension, when any. -/
structure GatewayStep where
  state : HostState
  reply : Option (Except String LoopResult)
  forwarded : Option (String × String)
deriving Repr

/-- `handleCliCommand(command, params, authToken, callback)`, host/index.js
lines 236-273: reject a wrong auth token before anything else; then the
allow-list; then loop commands handled locally; every other command gets a
fresh UUID correlation id (`freshId`), is recorded in `pendingCliRequests`
with a 30 s timeout, and is forwarded to the extension. -/
def handleCliCommandHost (st : HostState) (now : Nat) (command : String)
    (p : CliParams) (authToken : String) (freshId : String) : GatewayStep :=
  if authToken ≠ st.token then
    { state := st, reply := some (.error "Invalid or missing auth token"), forwarded := none }
  else if ¬ command ∈ ALLOWED_COMMANDS then
    { state := st, reply := some (.error ("Command not allowed: " ++ command)), forwarded := none }
  else if command ∈ LOOP_COMMANDS then
    let (ls, resp) := handleLoopCommand st.loopState now command p
    { state := { st with loopState := ls }, reply := some resp, forwarded := none }
  else
    { state := { st with pending := st.pending ++ [freshId] }, reply := none,
      forwarded := some (freshId, command) }

/-! ## Request correlation as a transition system (host/index.js lines 256-268,
278-289 and 398-417)

The events that can touch `pendingCliRequests` for a given correlation id:
the gateway forwarding a command (registering the callback and arming the
30 s timer), a frame from the extension (`handleExtensionMessage` routes it
to the callback only when the id is pending and the frame carries a
`success` field), the timer firing (resolving with a timeout error only when
the id is still pending), and the automation channel disconnecting
(`readMessage` returning null or throwing), after which `main` runs
`process.exit(0)`: no further code of the host — callbacks and timers
included — ever runs. -/

/-- An event touching the correlation state. -/
inductive HostEvent where
  | forward (id : String)
  | extResponse (id : String) (hasSuccessField : Bool)
  | timerFire (id : String)
  | channelEof
deriving Repr, DecidableEq

/-- The correlation-relevant host state: the outstanding correlation ids,
the log of callback resolutions (`true` = resolved by a matching response,
`false` = resolved by the timeout), and whether the process has exited. -/
structure CorrState where
  pending : List String
  resolutions : List (String × Bool)
  dead : Bool
deriving Repr, DecidableEq

/-- The all-empty starting correlation state. -/
def corrInit : CorrState := { pending := [], resolutions := [], dead := false }

/-- One event step.  `handleExtensionMessage` (lines 284-289) resolves only
when `pendingCliRequests.has(id) && success !== undefined`, deleting the
entry before invoking the callback; the timer body (lines 263-268) likewise
checks `has(id)` and deletes before invoking; a dead process runs nothing. -/
def corrStep (s : CorrState) (e : HostEvent) : CorrState :=
  if s.dead then s else
  match e with
  | .forward id => { s with pending := s.pending ++ [id] }
  | .extResponse id hasSuccessField =>
    if hasSuccessField ∧ id ∈ s.pending then
      { s with pending := s.pending.erase id,
               resolutions := s.resolutions ++ [(id, true)] }
    else s
  | .timerFire id =>
    if id ∈ s.pending then
      { s with pending := s.pending.erase id,
               resolutions := s.resolutions ++ [(id, false)] }
    else s
  | .channelEof => { s with dead := true }

/-- Run a trace of events. -/
def corrRun (s : CorrState) (es : List HostEvent) : CorrState :=
  es.foldl corrStep s

/-- Number of callback resolutions recorded for a correlation id. -/
def resolutionCount (s : CorrState) (id : String) : Nat :=
  (s.resolutions.filter (fun r => r.1 = id)).length

/-- Number of forward events for an id in a trace (each id is a fresh
`randomUUID()`, so a real trace forwards each id at most once). -/
def forwardCount (es : List HostEvent) (id : String) : Nat :=
  (es.filter (fun e => e = .forward id)).length

/-- Timeline well-formedness: the recorded elapsed-time stamps are
non-decreasing in append order and all bounded by `bound`. -/
def TLok (tl : List TLEvent) (bound : Nat) : Prop :=
  List.Chain' (· ≤ ·) (tl.map TLEvent.t) ∧ ∀ e ∈ tl, e.t ≤ bound

/-- A network environment that is never idle (one pending non-critical
request at every instant), with 25 ms polls and a 50 ms render check: used
to evaluate the detector past its budget. -/
def envCE : ReadyEnv :=
  { status := fun _ => ⟨1, 0, 0⟩, pollDelay := fun _ => 25,
    renderDelay := 50, renderOk := true }

/-- Resolved plus still-pending occurrences of a correlation id: the
quantity that bounds how often its callback can ever run. -/
def corrMeasure (s : CorrState) (id : String) : Nat :=
  resolutionCount s id + s.pending.count id

/-- Resolved-or-pending: once an id has been forwarded it is either still
pending or already resolved, until the process dies. -/
def JInv (s : CorrState) (id : String) : Prop :=
  id ∈ s.pending ∨ 1 ≤ resolutionCount s id

/-- `n` consecutive incrementLoopIteration commands, all issued at wall-clock
time `now`. -/
def iterateIncrements (ls : LoopState) (now : Nat) : Nat → LoopState
  | 0 => ls
  | n + 1 =>
    iterateIncrements
      ((handleLoopCommand ls now "incrementLoopIteration" CliParams.empty).1) now n

/-- A pool whose single tab is owned by agentB. -/
def singleForeignOwnerPool : BgState :=
  { window := some { windowId := 7, tabs := [⟨5, "agentB"⟩] },
    activeTabId := some 5 }

/-- A pool whose single tab 5 is owned by agentB (state for the ownership
gate claims). -/
def gateDemoPool : BgState :=
  { window := some { windowId := 3, tabs := [⟨5, "agentB"⟩] },
    activeTabId := some 5 }

/-- A full pool: tabs 1..10, all owned by agentA, tab 1 oldest. -/
def fullPoolOfA : WindowState :=
  { windowId := 4,
    tabs := [⟨1, "agentA"⟩, ⟨2, "agentA"⟩, ⟨3, "agentA"⟩, ⟨4, "agentA"⟩,
             ⟨5, "agentA"⟩, ⟨6, "agentA"⟩, ⟨7, "agentA"⟩, ⟨8, "agentA"⟩,
             ⟨9, "agentA"⟩, ⟨10, "agentA"⟩] }

/-- A two-ticket, two-step chained schedule: ticket 0 runs its steps at
positions 0,1, ticket 1 at positions 2,3. -/
def demoSchedule : ChainSchedule 2 (fun _ => 2) :=
  { pos := fun i s => 2 * i + s,
    stepOrder := by
      intro i s s' _ hss _
      show 2 * i + s < 2 * i + s'
      omega,
    chained := by
      intro i _
      show 2 * i + (2 - 1) < 2 * (i + 1) + 0
      omega }

/-! # Theorems -/

/-- Claim C7: any command line whose authToken differs from the token
generated at process start is answered with exactly
`{success:false, error:"Invalid or missing auth token"}`, no correlation id
is created, no PendingRequest is recorded, nothing is forwarded to the
automation channel, and this holds for every command name and parameter
value — so the auth check precedes the allow-list check and all other
processing. -/
theorem gateway_rejects_bad_token_first (st : HostState) (now : Nat)
    (command : String) (p : CliParams) (authToken : String) (freshId : String)
    (h : authToken ≠ st.token) :
    handleCliCommandHost st now command p authToken freshId =
      { state := st, reply := some (.error "Invalid or missing auth token"),
        forwarded := none } := by
  simp [handleCliCommandHost, h]

/-- Witness for C7: a concrete wrong token against a concrete host state is
rejected with the exact auth error, leaving the state untouched. -/
theorem gateway_rejects_bad_token_first_witness :
    handleCliCommandHost ⟨"tok", emptyLoopState, []⟩ 0 "screenshot"
        CliParams.empty "wrong" "id1" =
      { state := ⟨"tok", emptyLoopState, []⟩,
        reply := some (.error "Invalid or missing auth token"),
        forwarded := none } :=
  gateway_rejects_bad_token_first ⟨"tok", emptyLoopState, []⟩ 0 "screenshot"
    CliParams.empty "wrong" "id1" (by decide)

/-- Claim C10: when a loop has been active for strictly more than the
1-hour wall-clock ceiling, a stopLoop call first hits the implicit timeout
check, which resets the state to idle, and the stop then reports
`{stopped: false}` — the caller cannot observe that a loop had been
active. -/
theorem stopLoop_after_ceiling_reports_stopped_false (ls : LoopState)
    (now t0 : Nat) (p : CliParams) (hact : ls.active = true)
    (hstart : ls.startedAt = some t0)
    (hlate : now - t0 > MAX_LOOP_DURATION_MS) :
    handleLoopCommand ls now "stopLoop" p =
      (emptyLoopState, .ok (.stopped false)) := by
  simp [handleLoopCommand, isLoopTimedOut, hact, hstart, hlate, emptyLoopState]

/-- Witness for C10: a loop started at time 0 and stopped 3 600 001 ms later
reports `stopped: false`. -/
theorem stopLoop_after_ceiling_reports_stopped_false_witness :
    handleLoopCommand
        { active := true, prompt := "x", iteration := 3, maxIterations := 20,
          completionPromise := none, startedAt := some 0 }
        3600001 "stopLoop" CliParams.empty =
      (emptyLoopState, .ok (.stopped false)) :=
  stopLoop_after_ceiling_reports_stopped_false _ 3600001 0 CliParams.empty
    (by decide) (by decide) (by decide)

/-- One incrementLoopIteration on an active, not-timed-out loop bumps the
iteration counter and changes nothing else. -/
theorem increment_active_step (ls : LoopState) (now t0 : Nat) (p : CliParams)
    (hact : ls.active = true) (hstart : ls.startedAt = some t0)
    (hwithin : now - t0 ≤ MAX_LOOP_DURATION_MS) :
    handleLoopCommand ls now "incrementLoopIteration" p =
      ({ ls with iteration := ls.iteration + 1 },
       .ok (.iterationCount (ls.iteration + 1))) := by
  have hto : isLoopTimedOut ls now = false := by
    simp [isLoopTimedOut, hstart]
    omega
  simp [handleLoopCommand, hto, hact]

/-- Iterated increments on an active, not-timed-out loop accumulate without
any cap and leave every other field alone. -/
theorem iterateIncrements_adds (now t0 : Nat) (n : Nat) :
    ∀ ls : LoopState, ls.active = true → ls.startedAt = some t0 →
      now - t0 ≤ MAX_LOOP_DURATION_MS →
      iterateIncrements ls now n = { ls with iteration := ls.iteration + n } := by
  induction n with
  | zero => intro ls _ _ _; simp [iterateIncrements]
  | succ n ih =>
    intro ls hact hstart hwithin
    rw [iterateIncrements,
      increment_active_step ls now t0 CliParams.empty hact hstart hwithin]
    rw [ih { ls with iteration := ls.iteration + 1 } hact hstart hwithin]
    simp
    omega

/-- A getLoopState on an active, not-timed-out loop reports the unchanged
state with `timedOut:false`. -/
theorem getLoopState_active_within (ls : LoopState) (now t0 : Nat)
    (p : CliParams) (hstart : ls.startedAt = some t0)
    (hwithin : now - t0 ≤ MAX_LOOP_DURATION_MS) :
    handleLoopCommand ls now "getLoopState" p =
      (ls, .ok (.stateWithTimeout ls false)) := by
  have hto : isLoopTimedOut ls now = false := by
    simp [isLoopTimedOut, hstart]
    omega
  simp [handleLoopCommand, hto]

set_option maxRecDepth 20000 in
/-- Counterexample to claim C3 as stated: after
`startLoop({prompt:"x", maxIterations:20})`, twenty-one
incrementLoopIteration calls leave the observable iteration value at 21,
not 20 — `incrementLoopIteration` never consults `maxIterations`. -/
theorem incrementLoop_21_reaches_21 :
    (iterateIncrements
        ((handleLoopCommand emptyLoopState 0 "startLoop"
          { prompt := some "x", maxIterations := 20, completionPromise := none }).1)
        0 21).iteration = 21 ∧
    ¬ (iterateIncrements
        ((handleLoopCommand emptyLoopState 0 "startLoop"
          { prompt := some "x", maxIterations := 20, completionPromise := none }).1)
        0 21).iteration = 20 := by
  constructor <;> decide

/-- Claim C3 (amended): after a successful `startLoop` with
`maxIterations = 20`, `n` incrementLoopIteration calls within the 1-hour
ceiling leave the iteration value at `n` — in particular 21 calls yield 21;
there is no cap at `maxIterations`.  The loop does stay active: a
subsequent getLoopState reports the same still-active state with
`timedOut:false`. -/
theorem incrementLoop_no_cap (prompt : String) (hp : prompt ≠ "")
    (T now n : Nat) (hwithin : now - T ≤ MAX_LOOP_DURATION_MS) :
    (iterateIncrements ((handleLoopCommand emptyLoopState T "startLoop"
        { prompt := some prompt, maxIterations := 20, completionPromise := none }).1)
      now n).iteration = n ∧
    (iterateIncrements ((handleLoopCommand emptyLoopState T "startLoop"
        { prompt := some prompt, maxIterations := 20, completionPromise := none }).1)
      now n).active = true ∧
    (handleLoopCommand
        (iterateIncrements ((handleLoopCommand emptyLoopState T "startLoop"
          { prompt := some prompt, maxIterations := 20, completionPromise := none }).1)
          now n)
        now "getLoopState" CliParams.empty).2 =
      .ok (.stateWithTimeout
        (iterateIncrements ((handleLoopCommand emptyLoopState T "startLoop"
          { prompt := some prompt, maxIterations := 20, completionPromise := none }).1)
          now n)
        false) := by
  have hstartres :
      (handleLoopCommand emptyLoopState T "startLoop"
        { prompt := some prompt, maxIterations := 20, completionPromise := none }).1 =
      { active := true, prompt := prompt, iteration := 0, maxIterations := 20,
        completionPromise := none, startedAt := some T } := by
    simp [handleLoopCommand, emptyLoopState, isLoopTimedOut, jsTruthyStr, hp,
      MAX_ITERATIONS_LIMIT, MAX_COMPLETION_PROMISE_LENGTH]
  rw [hstartres]
  rw [iterateIncrements_adds now T n _ rfl rfl hwithin]
  refine ⟨by simp, rfl, ?_⟩
  rw [getLoopState_active_within _ now T CliParams.empty rfl hwithin]

/-- Witness for the amended C3: concrete run, 21 increments at time 0 give
iteration 21 on a still-active loop. -/
theorem incrementLoop_no_cap_witness :
    (iterateIncrements ((handleLoopCommand emptyLoopState 0 "startLoop"
        { prompt := some "x", maxIterations := 20, completionPromise := none }).1)
      0 21).iteration = 21 ∧
    (iterateIncrements ((handleLoopCommand emptyLoopState 0 "startLoop"
        { prompt := some "x", maxIterations := 20, completionPromise := none }).1)
      0 21).active = true := by
  have h := incrementLoop_no_cap "x" (by decide) 0 0 21 (by decide)
  exact ⟨h.1, h.2.1⟩

/-- Claim C1, evaluated at the failing input: with exactly one tab in the
pool, owned by agentB, a closeWindow by agentA succeeds and destroys the
session, because the guard `hasMultipleOwners && !isOnlyOwner && agentId`
requires at least two distinct non-"unknown" owners before it can fire —
even though `isOnlyOwner` is false for agentA.  The claim (and the code
comments and the text of the unreached error) say this call must fail with
an OwnershipError and leave the session alone. -/
theorem closeWindow_destroys_single_other_owner_session :
    closeWindow singleForeignOwnerPool (some "agentA") =
      ({ window := none, activeTabId := none },
       .ok { windowId := 7, tabsClosed := 1 },
       [.removeWindow 7]) := by
  rfl

/-- Counterexample to claim C2 as stated: a request that targets tab 5 by
id but carries no agentId passes the ownership gate of every targeted
command (`if (targetTab && agentId) verifyTabOwnership(...)`) even though
the owner of tab 5, agentB, is neither "unknown" nor the (absent)
requesting id — no OwnershipError is raised. -/
theorem targeted_op_without_agentId_bypasses_check :
    tabTargetGate gateDemoPool (some 5) none "navigate" = .ok () := by
  rfl

/-- Claim C2 (amended): every command handler that targets a specific tab
by id runs the shared ownership gate, and whenever the request carries a
non-empty agentId and the targeted entry has an owner that is neither
"unknown" nor that agentId, the operation fails with the OwnershipError
carrying the operation name, the tab id and both owner identifiers — for
every operation name and every such parameter value.  Requests that omit
the agentId (or target no explicit tab) skip the check. -/
theorem targeted_op_with_agentId_denied (w : WindowState) (act : Option TabId)
    (t : TabId) (e : TabEntry) (a op : String)
    (hfind : w.tabs.find? (fun x => x.tabId == t) = some e)
    (ht : t ≠ 0) (ha : a ≠ "") (hown : e.ownerId ≠ "unknown")
    (hne : e.ownerId ≠ a) :
    tabTargetGate ⟨some w, act⟩ (some t) (some a) op =
      .error (.ownership op t e.ownerId a) := by
  simp [tabTargetGate, jsTruthyNat, jsTruthyStr, ht, ha, verifyTabOwnership,
    hfind, hown, hne, Except.map]

/-- Witness for the amended C2: agentA navigating agentB-owned tab 5 is
denied with the full ownership error. -/
theorem targeted_op_with_agentId_denied_witness :
    tabTargetGate ⟨some ⟨3, [⟨5, "agentB"⟩]⟩, some 5⟩ (some 5) (some "agentA")
        "navigate" =
      .error (.ownership "navigate" 5 "agentB" "agentA") :=
  targeted_op_with_agentId_denied ⟨3, [⟨5, "agentB"⟩]⟩ (some 5) 5 ⟨5, "agentB"⟩
    "agentA" "navigate" (by rfl) (by decide) (by decide) (by decide) (by decide)

/-- Claim C6: for a pooled entry with a real owner, closeTab by a different
agent id always fails with the OwnershipError naming the tab, the true
owner and the requester, and leaves the globals untouched, the entry in the
pool and the underlying tab open (no browser effect); when the requester
matches the owner (or the owner is "unknown"), the entry is spliced out,
the underlying tab closed, and if the closed tab was the active one the
most-recently-inserted remaining entry becomes the active tab. -/
theorem closeTab_ownership_checked (w : WindowState) (act : Option TabId)
    (t : TabId) (e : TabEntry) (a : String)
    (hfind : w.tabs.find? (fun x => x.tabId == t) = some e)
    (ht : t ≠ 0) (ha : a ≠ "") :
    (e.ownerId ≠ "unknown" → e.ownerId ≠ a →
      closeTab ⟨some w, act⟩ (some t) (some a) =
        (⟨some w, act⟩, .error (.closeTabOwnership t e.ownerId a), [])) ∧
    (e.ownerId = "unknown" ∨ e.ownerId = a →
      closeTab ⟨some w, act⟩ (some t) (some a) =
        ({ window := some { w with tabs := w.tabs.eraseP (fun x => x.tabId == t) },
           activeTabId :=
             if act = some t then
               ((w.tabs.eraseP (fun x => x.tabId == t)).getLast?.map TabEntry.tabId)
             else act },
         .ok { tabId := t,
               tabCount := (w.tabs.eraseP (fun x => x.tabId == t)).length },
         [.removeTab t])) := by
  constructor
  · intro hown hne
    simp [closeTab, jsTruthyNat, jsTruthyStr, ht, ha, hfind, hown, hne]
  · intro hok
    have hcond : ¬ (e.ownerId ≠ "unknown" ∧ e.ownerId ≠ a) := by
      rcases hok with h | h <;> simp [h]
    simp [closeTab, jsTruthyNat, jsTruthyStr, ht, ha, hfind, hcond]

/-- Witness for C6: agentB asking to close tab 1, owned by agentA, is
denied with the full ownership error and nothing changes. -/
theorem closeTab_ownership_checked_witness :
    closeTab ⟨some ⟨9, [⟨1, "agentA"⟩, ⟨2, "agentB"⟩]⟩, some 1⟩ (some 1)
        (some "agentB") =
      (⟨some ⟨9, [⟨1, "agentA"⟩, ⟨2, "agentB"⟩]⟩, some 1⟩,
       .error (.closeTabOwnership 1 "agentA" "agentB"), []) :=
  (closeTab_ownership_checked ⟨9, [⟨1, "agentA"⟩, ⟨2, "agentB"⟩]⟩ (some 1) 1
      ⟨1, "agentA"⟩ "agentB" (by rfl) (by decide) (by decide)).1
    (by decide) (by decide)

/-- One createWindow call preserves the pool bound. -/
theorem poolSize_createWindow_le (st : BgState) (agentId : Option OwnerId)
    (valid : Bool) (wid tid : Nat) (h : poolSize st ≤ MAX_TABS) :
    poolSize (createWindow st agentId valid wid tid).1 ≤ MAX_TABS := by
  rcases st with ⟨win, act⟩
  cases win with
  | none => simp [createWindow, poolSize, MAX_TABS]
  | some w =>
    cases valid with
    | false => simp [createWindow, poolSize, MAX_TABS]
    | true =>
      simp only [poolSize, MAX_TABS] at h
      by_cases hfull : 10 ≤ w.tabs.length
      · simp [createWindow, poolSize, MAX_TABS, hfull, List.length_tail]
        omega
      · simp [createWindow, poolSize, MAX_TABS, hfull]
        omega

/-- The pool bound is an invariant of arbitrary createWindow sequences. -/
theorem poolSize_runCreates_le (ops : List CreateInput) :
    ∀ st : BgState, poolSize st ≤ MAX_TABS →
      poolSize (runCreates st ops) ≤ MAX_TABS := by
  induction ops with
  | nil => intro st h; simpa [runCreates] using h
  | cons op rest ih =>
    intro st h
    have hstep := poolSize_createWindow_le st op.agentId op.windowValid
      op.newWindowId op.newTabId h
    simpa [runCreates] using ih _ hstep

/-- Claim C5: (1) starting from no session, every sequence of createWindow
calls keeps the pool at no more than MAX_TABS (10) entries; (2) a create
against a full pool evicts exactly the oldest-inserted entry, whoever owns
it: the evicted tab is closed before the new tab is created (effect order),
the new entry is appended, the new tab becomes active, the pool stays at
exactly 10 entries, and the response reports which tab was evicted. -/
theorem createWindow_pool_bound_and_fifo_eviction :
    (∀ ops : List CreateInput, poolSize (runCreates initialBgState ops) ≤ MAX_TABS) ∧
    (∀ (w : WindowState) (act : Option TabId) (agentId : Option OwnerId)
        (wid tid : Nat) (e : TabEntry) (rest : List TabEntry),
        w.tabs = e :: rest → w.tabs.length = MAX_TABS →
        createWindow ⟨some w, act⟩ agentId true wid tid =
          ({ window := some { w with tabs := rest ++ [⟨tid, effectiveOwner agentId⟩] },
             activeTabId := some tid },
           { windowId := w.windowId, tabId := tid,
             ownerId := effectiveOwner agentId, tabCount := MAX_TABS,
             isNewWindow := false, closedOldestTab := some e.tabId },
           [.removeTab e.tabId, .createTab tid])) := by
  constructor
  · intro ops
    exact poolSize_runCreates_le ops initialBgState (by simp [initialBgState, poolSize])
  · intro w act agentId wid tid e rest htabs hlen
    have hfull : w.tabs.length ≥ MAX_TABS := le_of_eq hlen.symm
    have hrest : rest.length + 1 = MAX_TABS := by
      rw [htabs] at hlen
      simpa using hlen
    simp [createWindow, hfull, htabs, hrest]

/-- Witness for C5: agentB creating into the full agentA pool evicts tab 1
(closed before tab 11 is created), appends and activates tab 11, and the
pool stays at 10. -/
theorem createWindow_pool_bound_and_fifo_eviction_witness :
    createWindow ⟨some fullPoolOfA, some 10⟩ (some "agentB") true 4 11 =
      (⟨some ⟨4, [⟨2, "agentA"⟩, ⟨3, "agentA"⟩, ⟨4, "agentA"⟩, ⟨5, "agentA"⟩,
                  ⟨6, "agentA"⟩, ⟨7, "agentA"⟩, ⟨8, "agentA"⟩, ⟨9, "agentA"⟩,
                  ⟨10, "agentA"⟩, ⟨11, "agentB"⟩]⟩, some 11⟩,
       ⟨4, 11, "agentB", 10, false, some 1⟩,
       [.removeTab 1, .createTab 11]) := by
  have h := createWindow_pool_bound_and_fifo_eviction.2 fullPoolOfA (some 10)
    (some "agentB") 4 11 ⟨1, "agentA"⟩
    [⟨2, "agentA"⟩, ⟨3, "agentA"⟩, ⟨4, "agentA"⟩, ⟨5, "agentA"⟩, ⟨6, "agentA"⟩,
     ⟨7, "agentA"⟩, ⟨8, "agentA"⟩, ⟨9, "agentA"⟩, ⟨10, "agentA"⟩]
    (by rfl) (by rfl)
  simpa [fullPoolOfA, MAX_TABS, effectiveOwner, jsTruthyStr] using h

theorem TLok.mono {tl : List TLEvent} {b b' : Nat} (h : TLok tl b) (hb : b ≤ b') :
    TLok tl b' :=
  ⟨h.1, fun e he => le_trans (h.2 e he) hb⟩

theorem TLok.push {tl : List TLEvent} {b : Nat} (h : TLok tl b) (x : Nat)
    (ev : String) (hx : b ≤ x) : TLok (tl ++ [⟨x, ev⟩]) x := by
  constructor
  · rw [List.map_append]
    apply List.Chain'.append h.1 (by simp)
    intro a ha y hy
    simp at hy
    subst hy
    have hmem : a ∈ tl.map TLEvent.t := List.mem_of_mem_getLast? ha
    obtain ⟨e, he, rfl⟩ := List.mem_map.mp hmem
    exact le_trans (h.2 e he) hx
  · intro e he
    rcases List.mem_append.mp he with h1 | h2
    · exact le_trans (h.2 e h1) hx
    · simp at h2
      subst h2
      exact le_refl _

theorem phase1_tlok_aux (env : ReadyEnv) (startTime maxWait idleThreshold : Nat) :
    ∀ (fuel now lastActivity : Nat) (tl : List TLEvent),
      startTime + maxWait - now ≤ fuel →
      startTime ≤ now → TLok tl (now - startTime) →
      now ≤ (phase1 env startTime maxWait idleThreshold now lastActivity tl).1 ∧
      TLok (phase1 env startTime maxWait idleThreshold now lastActivity tl).2
        ((phase1 env startTime maxWait idleThreshold now lastActivity tl).1 - startTime) := by
  intro fuel
  induction fuel with
  | zero =>
    intro now la tl hfuel hs htl
    have hguard : ¬ (now - startTime < maxWait) := by omega
    rw [phase1, dif_neg hguard]
    exact ⟨le_refl _, htl⟩
  | succ fuel ih =>
    intro now la tl hfuel hs htl
    rw [phase1]
    by_cases hguard : now - startTime < maxWait
    · rw [dif_pos hguard]
      by_cases hcrit : (env.status now).criticalPending = 0
      · simp only [if_pos hcrit]
        exact ⟨le_refl _, htl.push (now - startTime) _ (le_refl _)⟩
      · simp only [if_neg hcrit]
        have hpos : 0 < (env.status now).criticalPending := Nat.pos_of_ne_zero hcrit
        simp only [if_pos hpos]
        rw [if_neg (by omega : ¬ now - now > idleThreshold * 3)]
        have hstep : 25 ≤ max 25 (env.pollDelay now) := le_max_left _ _
        obtain ⟨h1, h2⟩ := ih (now + max 25 (env.pollDelay now)) now tl (by omega)
          (by omega) (htl.mono (by omega))
        exact ⟨by omega, h2⟩
    · rw [dif_neg hguard]
      exact ⟨le_refl _, htl⟩

theorem phase1_tlok (env : ReadyEnv) (startTime maxWait idleThreshold now lastActivity : Nat)
    (tl : List TLEvent) (hs : startTime ≤ now) (htl : TLok tl (now - startTime)) :
    now ≤ (phase1 env startTime maxWait idleThreshold now lastActivity tl).1 ∧
    TLok (phase1 env startTime maxWait idleThreshold now lastActivity tl).2
      ((phase1 env startTime maxWait idleThreshold now lastActivity tl).1 - startTime) :=
  phase1_tlok_aux env startTime maxWait idleThreshold (startTime + maxWait - now)
    now lastActivity tl (le_refl _) hs htl

theorem phase2loop_tlok_aux (env : ReadyEnv) (visualStart visualMaxWait startTime : Nat) :
    ∀ (fuel now : Nat) (tl : List TLEvent),
      visualStart + visualMaxWait - now ≤ fuel →
      startTime ≤ now → TLok tl (now - startTime) →
      now ≤ (phase2loop env visualStart visualMaxWait now startTime tl).1 ∧
      TLok (phase2loop env visualStart visualMaxWait now startTime tl).2
        ((phase2loop env visualStart visualMaxWait now startTime tl).1 - startTime) := by
  intro fuel
  induction fuel with
  | zero =>
    intro now tl hfuel hs htl
    have hguard : ¬ (now - visualStart < visualMaxWait) := by omega
    rw [phase2loop, dif_neg hguard]
    exact ⟨le_refl _, htl⟩
  | succ fuel ih =>
    intro now tl hfuel hs htl
    rw [phase2loop]
    by_cases hguard : now - visualStart < visualMaxWait
    · rw [dif_pos hguard]
      by_cases hidle : (env.status now).pending = 0
      · simp only [if_pos hidle]
        exact ⟨le_refl _, htl.push (now - startTime) _ (le_refl _)⟩
      · simp only [if_neg hidle]
        have hstep : 25 ≤ max 25 (env.pollDelay now) := le_max_left _ _
        obtain ⟨h1, h2⟩ := ih (now + max 25 (env.pollDelay now)) tl (by omega)
          (by omega) (htl.mono (by omega))
        exact ⟨by omega, h2⟩
    · rw [dif_neg hguard]
      exact ⟨le_refl _, htl⟩

theorem phase2loop_tlok (env : ReadyEnv) (visualStart visualMaxWait now startTime : Nat)
    (tl : List TLEvent) (hs : startTime ≤ now) (htl : TLok tl (now - startTime)) :
    now ≤ (phase2loop env visualStart visualMaxWait now startTime tl).1 ∧
    TLok (phase2loop env visualStart visualMaxWait now startTime tl).2
      ((phase2loop env visualStart visualMaxWait now startTime tl).1 - startTime) :=
  phase2loop_tlok_aux env visualStart visualMaxWait startTime
    (visualStart + visualMaxWait - now) now tl (le_refl _) hs htl

theorem renderCheck_tlok (env : ReadyEnv) (startTime now : Nat) (tl : List TLEvent)
    (_hs : startTime ≤ now) (htl : TLok tl (now - startTime)) :
    now ≤ (renderCheck env startTime now tl).1 ∧
    TLok (renderCheck env startTime now tl).2
      ((renderCheck env startTime now tl).1 - startTime) := by
  constructor
  · simp [renderCheck]
  · exact (htl.mono (by simp [renderCheck]; omega)).push
      (now + env.renderDelay - startTime) _ (le_refl _)

theorem tlok_start (startTime : Nat) :
    TLok [⟨0, "start"⟩] (startTime - startTime) := by
  constructor
  · simp
  · intro e he
    simp at he
    simp [he]

/-- Claim C4 (amended): for every invocation of the readiness detector the
timeline's elapsed-time stamps are non-decreasing in append order, and
whenever the result has `timedOut = true` the total wait is at least
`maxWait` (`timedOut` is defined as `totalWait >= maxWait`), not at most
`maxWait` as the claim stated; the detector, being a total function, always
returns. -/
theorem readiness_timeline_monotone_timeout_ge (env : ReadyEnv)
    (startTime maxWait idleThreshold : Nat) (rvi : Bool) :
    List.Chain' (· ≤ ·)
      ((waitForPageReady env startTime maxWait idleThreshold rvi).timeline.map TLEvent.t) ∧
    ((waitForPageReady env startTime maxWait idleThreshold rvi).timedOut = true →
      maxWait ≤ (waitForPageReady env startTime maxWait idleThreshold rvi).totalWaitMs) := by
  rw [waitForPageReady]
  by_cases h0 : (env.status startTime).pending = 0
  · simp only [if_pos h0]
    obtain ⟨hr1, hr2⟩ := renderCheck_tlok env startTime startTime
      ([⟨0, "start"⟩] ++ [⟨0, "already_idle"⟩]) (le_refl _)
      ((((tlok_start startTime).push 0 "already_idle" (by omega)).mono (Nat.zero_le _)))
    refine ⟨?_, by simp⟩
    exact (hr2.push _ "complete" (le_refl _)).1
  · simp only [if_neg h0]
    obtain ⟨h1n, h1tl⟩ := phase1_tlok env startTime maxWait idleThreshold startTime
      startTime [⟨0, "start"⟩] (le_refl _) (tlok_start startTime)
    set p1 := phase1 env startTime maxWait idleThreshold startTime startTime
      [⟨0, "start"⟩] with hp1
    have hs1 : startTime ≤ p1.1 := h1n
    have h2 : startTime ≤
        (if rvi then
          if (phase2loop env p1.1 (min 3000 (maxWait - (p1.1 - startTime))) p1.1 startTime p1.2).1 - p1.1 ≥
              min 3000 (maxWait - (p1.1 - startTime)) then
            ((phase2loop env p1.1 (min 3000 (maxWait - (p1.1 - startTime))) p1.1 startTime p1.2).1,
             (phase2loop env p1.1 (min 3000 (maxWait - (p1.1 - startTime))) p1.1 startTime p1.2).2 ++
               [⟨(phase2loop env p1.1 (min 3000 (maxWait - (p1.1 - startTime))) p1.1 startTime p1.2).1 - startTime,
                 "visual_timeout"⟩])
          else phase2loop env p1.1 (min 3000 (maxWait - (p1.1 - startTime))) p1.1 startTime p1.2
        else p1).1 ∧
        TLok (if rvi then
          if (phase2loop env p1.1 (min 3000 (maxWait - (p1.1 - startTime))) p1.1 startTime p1.2).1 - p1.1 ≥
              min 3000 (maxWait - (p1.1 - startTime)) then
            ((phase2loop env p1.1 (min 3000 (maxWait - (p1.1 - startTime))) p1.1 startTime p1.2).1,
             (phase2loop env p1.1 (min 3000 (maxWait - (p1.1 - startTime))) p1.1 startTime p1.2).2 ++
               [⟨(phase2loop env p1.1 (min 3000 (maxWait - (p1.1 - startTime))) p1.1 startTime p1.2).1 - startTime,
                 "visual_timeout"⟩])
          else phase2loop env p1.1 (min 3000 (maxWait - (p1.1 - startTime))) p1.1 startTime p1.2
        else p1).2
        ((if rvi then
          if (phase2loop env p1.1 (min 3000 (maxWait - (p1.1 - startTime))) p1.1 startTime p1.2).1 - p1.1 ≥
              min 3000 (maxWait - (p1.1 - startTime)) then
            ((phase2loop env p1.1 (min 3000 (maxWait - (p1.1 - startTime))) p1.1 startTime p1.2).1,
             (phase2loop env p1.1 (min 3000 (maxWait - (p1.1 - startTime))) p1.1 startTime p1.2).2 ++
               [⟨(phase2loop env p1.1 (min 3000 (maxWait - (p1.1 - startTime))) p1.1 startTime p1.2).1 - startTime,
                 "visual_timeout"⟩])
          else phase2loop env p1.1 (min 3000 (maxWait - (p1.1 - startTime))) p1.1 startTime p1.2
        else p1).1 - startTime) := by
      by_cases hrvi : rvi
      · simp only [if_pos hrvi]
        obtain ⟨h2n, h2tl⟩ := phase2loop_tlok env p1.1
          (min 3000 (maxWait - (p1.1 - startTime))) p1.1 startTime p1.2 hs1 h1tl
        by_cases hvt : (phase2loop env p1.1 (min 3000 (maxWait - (p1.1 - startTime))) p1.1 startTime p1.2).1 - p1.1 ≥
            min 3000 (maxWait - (p1.1 - startTime))
        · simp only [if_pos hvt]
          exact ⟨le_trans hs1 h2n, h2tl.push _ "visual_timeout" (le_refl _)⟩
        · simp only [if_neg hvt]
          exact ⟨le_trans hs1 h2n, h2tl⟩
      · simp only [if_neg hrvi]
        exact ⟨hs1, h1tl⟩
    obtain ⟨h2n, h2tl⟩ := h2
    obtain ⟨h3n, h3tl⟩ := renderCheck_tlok env startTime _ _ h2n h2tl
    constructor
    · exact ((h3tl.push _ "complete" (le_refl _)).1)
    · intro hdec
      exact of_decide_eq_true hdec

/-- Counterexample to claim C4 as stated: with a never-idle environment, a
10 ms budget and a 50 ms render check, the detector reports
`timedOut = true` with `totalWaitMs = 50 > 10 = maxWait` — when
`timedOut = true` the total wait is at least, not at most, `maxWait`. -/
theorem readiness_timedOut_exceeds_maxWait :
    (waitForPageReady envCE 0 10 150 false).timedOut = true ∧
    (waitForPageReady envCE 0 10 150 false).totalWaitMs = 50 ∧
    ¬ ((waitForPageReady envCE 0 10 150 false).totalWaitMs ≤ 10) := by
  refine ⟨?_, ?_, ?_⟩ <;> simp [waitForPageReady, phase1, renderCheck, envCE]

/-- Witness for the amended C4: at the concrete never-idle run the
hypothesis `timedOut = true` holds and the theorem yields
`maxWait ≤ totalWaitMs`. -/
theorem readiness_timeline_monotone_timeout_ge_witness :
    (waitForPageReady envCE 0 10 150 false).timedOut = true ∧
    10 ≤ (waitForPageReady envCE 0 10 150 false).totalWaitMs := by
  have ht : (waitForPageReady envCE 0 10 150 false).timedOut = true := by
    simp [waitForPageReady, phase1, renderCheck, envCE]
  exact ⟨ht, (readiness_timeline_monotone_timeout_ge envCE 0 10 150 false).2 ht⟩

theorem resolutionCount_step_mono (s : CorrState) (e : HostEvent) (id : String) :
    resolutionCount s id ≤ resolutionCount (corrStep s e) id := by
  by_cases hd : s.dead
  · simp [corrStep, hd]
  · rcases e with eid | ⟨eid, hb⟩ | eid | _
    · simp [corrStep, hd, resolutionCount]
    · simp only [corrStep, hd, Bool.false_eq_true, if_false]
      split
      · simp [resolutionCount, List.filter_append]
      · exact le_refl _
    · simp only [corrStep, hd, Bool.false_eq_true, if_false]
      split
      · simp [resolutionCount, List.filter_append]
      · exact le_refl _
    · simp [corrStep, hd, resolutionCount]

theorem resolutionCount_run_mono (es : List HostEvent) :
    ∀ (s : CorrState) (id : String),
      resolutionCount s id ≤ resolutionCount (corrRun s es) id := by
  induction es with
  | nil => intro s id; exact le_refl _
  | cons e rest ih =>
    intro s id
    exact le_trans (resolutionCount_step_mono s e id)
      (by simpa [corrRun] using ih (corrStep s e) id)

theorem corrMeasure_step (s : CorrState) (e : HostEvent) (id : String) :
    corrMeasure (corrStep s e) id ≤
      corrMeasure s id + (if e = .forward id then 1 else 0) := by
  by_cases hd : s.dead
  · simp [corrStep, hd, corrMeasure]
  · rcases e with eid | ⟨eid, hb⟩ | eid | _
    · by_cases heq : eid = id
      · subst heq
        simp [corrStep, hd, corrMeasure, resolutionCount, List.count_append]
        omega
      · have hc : List.count id [eid] = 0 :=
          List.count_eq_zero.mpr (by simp only [List.mem_singleton]; exact fun h => heq h.symm)
        simp [corrStep, hd, corrMeasure, resolutionCount, List.count_append, hc]
    · simp only [corrStep, hd, Bool.false_eq_true, if_false]
      split
      · rename_i hcond
        by_cases heq : eid = id
        · subst heq
          have hcnt : 1 ≤ s.pending.count eid :=
            List.one_le_count_iff.mpr hcond.2
          simp [corrMeasure, resolutionCount, List.filter_append,
            List.count_erase_self]
          omega
        · simp [corrMeasure, resolutionCount, List.filter_append, heq,
            List.count_erase_of_ne (fun h => heq h.symm)]
      · simp [corrMeasure]
    · simp only [corrStep, hd, Bool.false_eq_true, if_false]
      split
      · rename_i hmem
        by_cases heq : eid = id
        · subst heq
          have hcnt : 1 ≤ s.pending.count eid :=
            List.one_le_count_iff.mpr hmem
          simp [corrMeasure, resolutionCount, List.filter_append,
            List.count_erase_self]
          omega
        · simp [corrMeasure, resolutionCount, List.filter_append, heq,
            List.count_erase_of_ne (fun h => heq h.symm)]
      · simp [corrMeasure]
    · simp [corrStep, hd, corrMeasure, resolutionCount]

theorem forwardCount_cons (e : HostEvent) (es : List HostEvent) (id : String) :
    forwardCount (e :: es) id =
      (if e = .forward id then 1 else 0) + forwardCount es id := by
  by_cases h : e = .forward id
  · simp [forwardCount, h]
    omega
  · simp [forwardCount, h]

theorem corrMeasure_run (es : List HostEvent) :
    ∀ (s : CorrState) (id : String),
      corrMeasure (corrRun s es) id ≤ corrMeasure s id + forwardCount es id := by
  induction es with
  | nil => intro s id; simp [corrRun, forwardCount]
  | cons e rest ih =>
    intro s id
    have h1 := corrMeasure_step s e id
    have h2 := ih (corrStep s e) id
    have h3 := forwardCount_cons e rest id
    simp only [corrRun, List.foldl_cons] at h2 ⊢
    by_cases heq : e = .forward id
    · subst heq
      simp only [if_pos rfl] at h1 h3
      omega
    · simp only [if_neg heq] at h1 h3
      omega

theorem corr_at_most_once (es : List HostEvent) (id : String)
    (h : forwardCount es id ≤ 1) :
    resolutionCount (corrRun corrInit es) id ≤ 1 := by
  have hm := corrMeasure_run es corrInit id
  have h0 : corrMeasure corrInit id = 0 := by simp [corrMeasure, corrInit, resolutionCount]
  have : resolutionCount (corrRun corrInit es) id ≤ corrMeasure (corrRun corrInit es) id := by
    simp [corrMeasure]
  omega
theorem jinv_step (s : CorrState) (e : HostEvent) (id : String) (h : JInv s id) :
    JInv (corrStep s e) id := by
  rcases h with hp | hr
  · by_cases hd : s.dead
    · simp only [corrStep, hd, if_true]
      exact Or.inl hp
    · rcases e with eid | ⟨eid, hb⟩ | eid | _
      · refine Or.inl ?_
        simp [corrStep, hd]
        exact Or.inl hp
      · simp only [corrStep, hd, Bool.false_eq_true, if_false]
        split
        · rename_i hcond
          by_cases heq : eid = id
          · subst heq
            exact Or.inr (by simp [resolutionCount, List.filter_append])
          · refine Or.inl ?_
            simp only []
            exact (List.mem_erase_of_ne (fun hh => heq hh.symm)).mpr hp
        · exact Or.inl hp
      · simp only [corrStep, hd, Bool.false_eq_true, if_false]
        split
        · rename_i hmem
          by_cases heq : eid = id
          · subst heq
            exact Or.inr (by simp [resolutionCount, List.filter_append])
          · refine Or.inl ?_
            simp only []
            exact (List.mem_erase_of_ne (fun hh => heq hh.symm)).mpr hp
        · exact Or.inl hp
      · simp only [corrStep, hd, Bool.false_eq_true, if_false]
        exact Or.inl hp
  · exact Or.inr (le_trans hr (resolutionCount_step_mono s e id))

theorem jinv_run (es : List HostEvent) :
    ∀ (s : CorrState) (id : String), JInv s id → JInv (corrRun s es) id := by
  induction es with
  | nil => intro s id h; exact h
  | cons e rest ih =>
    intro s id h
    simpa [corrRun] using ih (corrStep s e) id (jinv_step s e id h)

theorem timerFire_resolves (s : CorrState) (id : String) (hd : s.dead = false)
    (h : JInv s id) : 1 ≤ resolutionCount (corrStep s (.timerFire id)) id := by
  rcases h with hp | hr
  · simp [corrStep, hd, hp, resolutionCount, List.filter_append]
  · exact le_trans hr (resolutionCount_step_mono s _ id)

theorem corrStep_dead_of_ne (s : CorrState) (e : HostEvent)
    (he : e ≠ .channelEof) : (corrStep s e).dead = s.dead := by
  by_cases hd : s.dead
  · simp [corrStep, hd]
  · have hd' : s.dead = false := by simpa using hd
    rcases e with eid | ⟨eid, hb⟩ | eid | _
    · simp [corrStep, hd']
    · simp only [corrStep, hd', Bool.false_eq_true, if_false]
      split <;> simp [hd']
    · simp only [corrStep, hd', Bool.false_eq_true, if_false]
      split <;> simp [hd']
    · exact absurd rfl he

theorem corrRun_dead_of_no_eof (es : List HostEvent) :
    ∀ s : CorrState, HostEvent.channelEof ∉ es → (corrRun s es).dead = s.dead := by
  induction es with
  | nil => intro s _; rfl
  | cons e rest ih =>
    intro s hmem
    have he : e ≠ .channelEof := fun h => hmem (by simp [h])
    have hrest : HostEvent.channelEof ∉ rest := fun h => hmem (by simp [h])
    calc (corrRun s (e :: rest)).dead
        = (corrRun (corrStep s e) rest).dead := by simp [corrRun]
      _ = (corrStep s e).dead := ih _ hrest
      _ = s.dead := corrStep_dead_of_ne s e he

theorem corrRun_append (s : CorrState) (xs ys : List HostEvent) :
    corrRun s (xs ++ ys) = corrRun (corrRun s xs) ys := by
  simp [corrRun, List.foldl_append]

theorem corrRun_singleton (s : CorrState) (e : HostEvent) :
    corrRun s [e] = corrStep s e := rfl

theorem corrRun_cons (s : CorrState) (e : HostEvent) (es : List HostEvent) :
    corrRun s (e :: es) = corrRun (corrStep s e) es := rfl

theorem corr_eventually_resolved (es1 a b : List HostEvent) (id : String)
    (hfw : forwardCount (es1 ++ [.forward id] ++ (a ++ [.timerFire id] ++ b)) id ≤ 1)
    (hnoeof : HostEvent.channelEof ∉ es1 ++ [.forward id] ++ (a ++ [.timerFire id] ++ b)) :
    resolutionCount
      (corrRun corrInit (es1 ++ [.forward id] ++ (a ++ [.timerFire id] ++ b))) id = 1 := by
  have hle := corr_at_most_once _ id hfw
  have hno1 : HostEvent.channelEof ∉ es1 := fun h => hnoeof (by simp [h])
  have hnoa : HostEvent.channelEof ∉ a := fun h => hnoeof (by simp [h])
  have e1 : corrRun corrInit (es1 ++ [HostEvent.forward id] ++ (a ++ [HostEvent.timerFire id] ++ b)) =
      corrRun (corrStep (corrRun (corrStep (corrRun corrInit es1) (.forward id)) a)
        (.timerFire id)) b := by
    simp [corrRun_append, corrRun_singleton, corrRun_cons]
  have hd1 : (corrRun corrInit es1).dead = false := by
    rw [corrRun_dead_of_no_eof es1 corrInit hno1]
    rfl
  have hj2 : JInv (corrStep (corrRun corrInit es1) (.forward id)) id := by
    refine Or.inl ?_
    simp [corrStep, hd1]
  have hd2 : (corrStep (corrRun corrInit es1) (.forward id)).dead = false := by
    rw [corrStep_dead_of_ne _ _ (by simp)]
    exact hd1
  have hj3 : JInv (corrRun (corrStep (corrRun corrInit es1) (.forward id)) a) id :=
    jinv_run a _ id hj2
  have hd3 : (corrRun (corrStep (corrRun corrInit es1) (.forward id)) a).dead = false := by
    rw [corrRun_dead_of_no_eof a _ hnoa]
    exact hd2
  have hr4 : 1 ≤ resolutionCount
      (corrStep (corrRun (corrStep (corrRun corrInit es1) (.forward id)) a)
        (.timerFire id)) id :=
    timerFire_resolves _ id hd3 hj3
  have hr5 : 1 ≤ resolutionCount
      (corrRun (corrStep (corrRun (corrStep (corrRun corrInit es1) (.forward id)) a)
        (.timerFire id)) b) id :=
    le_trans hr4 (resolutionCount_run_mono b _ id)
  rw [e1] at hle ⊢
  omega


theorem runScreenshotTicket_window (st : BgState) (t : Ticket) :
    (runScreenshotTicket st t).1.window = st.window := by
  rcases st with ⟨win, act⟩
  cases win with
  | none => rfl
  | some w =>
    simp only [runScreenshotTicket]
    split
    · rfl
    · split <;> split <;> rfl

theorem runTickets_length (st : BgState) (ts : List Ticket) :
    (runTickets st ts).2.length = ts.length := by
  induction ts generalizing st with
  | nil => rfl
  | cons t rest ih =>
    simp [runTickets, ih]

theorem runScreenshotTicket_captures (st : BgState) (w : WindowState) (t : Ticket)
    (r : TabId) (hw : st.window = some w) (hr : t.requestedTabId = some r)
    (hr0 : r ≠ 0) (hmem : r ∈ w.tabs.map TabEntry.tabId) :
    (runScreenshotTicket st t).2 = .captured (some r) (some r) := by
  rcases st with ⟨win, act⟩
  simp only at hw
  subst hw
  by_cases hact : (some r : Option TabId) = act
  · subst hact
    simp [runScreenshotTicket, hr, jsTruthyNat, hr0, hmem]
  · simp [runScreenshotTicket, hr, jsTruthyNat, hr0, hmem, hact]

theorem runTickets_capture_own_target (ts : List Ticket) :
    ∀ (st : BgState) (w : WindowState) (i : Nat) (hi : i < ts.length) (r : TabId),
      st.window = some w →
      (ts.get ⟨i, hi⟩).requestedTabId = some r → r ≠ 0 →
      r ∈ w.tabs.map TabEntry.tabId →
      (runTickets st ts).2.get ⟨i, by rw [runTickets_length]; exact hi⟩ =
        .captured (some r) (some r) := by
  induction ts with
  | nil => intro st w i hi; exact absurd hi (by simp)
  | cons t rest ih =>
    intro st w i hi r hw hreq hr0 hmem
    match i with
    | 0 =>
      have h := runScreenshotTicket_captures st w t r hw hreq hr0 hmem
      simp only [runTickets]
      simpa using h
    | Nat.succ i =>
      have hwin : (runScreenshotTicket st t).1.window = some w := by
        rw [runScreenshotTicket_window]
        exact hw
      have h := ih (runScreenshotTicket st t).1 w i (by simpa using hi) r hwin
        (by simpa using hreq) hr0 hmem
      simp only [runTickets]
      simpa using h

/-- Claim C9: (a) under the promise-chain constraints — program order inside
each ticket and ticket i+1 starting only after ticket i settles, success or
failure alike — every step of ticket i precedes every step of ticket j for
i < j: the tickets run one at a time in arrival order with no interleaving;
(b) sequential execution yields one outcome per ticket, a failed ticket
never preventing the next from running; and (c) each ticket that targets a
pooled tab captures with exactly its own target visible — the visible tab
during ticket i's capture step is ticket i's target, never another
ticket's. -/
theorem screenshot_mutex_serializes_fifo :
    (∀ (n : Nat) (steps : Nat → Nat) (sch : ChainSchedule n steps)
        (i j s s' : Nat), i < j → j < n → s < steps i → s' < steps j →
        sch.pos i s < sch.pos j s') ∧
    (∀ (st : BgState) (ts : List Ticket), (runTickets st ts).2.length = ts.length) ∧
    (∀ (ts : List Ticket) (st : BgState) (w : WindowState) (i : Nat)
        (hi : i < ts.length) (r : TabId),
      st.window = some w →
      (ts.get ⟨i, hi⟩).requestedTabId = some r → r ≠ 0 →
      r ∈ w.tabs.map TabEntry.tabId →
      (runTickets st ts).2.get ⟨i, by rw [runTickets_length]; exact hi⟩ =
        .captured (some r) (some r)) := by
  refine ⟨?_, runTickets_length, runTickets_capture_own_target⟩
  intro n steps sch i j s s' hij hj hs hs'
  have hle1 : sch.pos i s ≤ sch.pos i (steps i - 1) := by
    rcases Nat.lt_or_ge s (steps i - 1) with h | h
    · exact le_of_lt (sch.stepOrder i s (steps i - 1) (lt_trans hij hj) h (by omega))
    · have heq : s = steps i - 1 := by omega
      rw [heq]
  have key : ∀ m, i < m → m < n → sch.pos i (steps i - 1) < sch.pos m 0 := by
    intro m
    induction m with
    | zero => intro him _; exact absurd him (by omega)
    | succ m ihm =>
      intro him hmn
      rcases Nat.lt_or_ge i m with h | h
      · have h1 := ihm h (by omega)
        have h2 : sch.pos m 0 ≤ sch.pos m (steps m - 1) := by
          rcases Nat.eq_zero_or_pos (steps m - 1) with hz | hp
          · rw [hz]
          · exact le_of_lt (sch.stepOrder m 0 (steps m - 1) (by omega) hp (by omega))
        have h3 := sch.chained m (by omega)
        omega
      · have heq : i = m := by omega
        subst heq
        exact sch.chained i (by omega)
  have h2 : sch.pos j 0 ≤ sch.pos j s' := by
    rcases Nat.eq_zero_or_pos s' with hz | hp
    · rw [hz]
    · exact le_of_lt (sch.stepOrder j 0 s' hj hp hs')
  have h3 := key j hij hj
  omega

/-- Witness for C9: in the demo schedule every step of ticket 0 precedes
every step of ticket 1; and with tab 5 active and tabs 5 and 6 pooled, a
ticket for tab 6 then a ticket for tab 5 each capture with exactly their own
target visible (the second runs after the first switched away and switches
back). -/
theorem screenshot_mutex_serializes_fifo_witness :
    demoSchedule.pos 0 1 < demoSchedule.pos 1 0 ∧
    (runTickets ⟨some ⟨2, [⟨5, "agentA"⟩, ⟨6, "agentB"⟩]⟩, some 5⟩
        [⟨some 6, true⟩, ⟨some 5, true⟩]).2.get ⟨1, by decide⟩ =
      .captured (some 5) (some 5) := by
  constructor
  · exact screenshot_mutex_serializes_fifo.1 2 (fun _ => 2) demoSchedule 0 1 1 0
      (by decide) (by decide) (by decide) (by decide)
  · exact screenshot_mutex_serializes_fifo.2.2
      [⟨some 6, true⟩, ⟨some 5, true⟩]
      ⟨some ⟨2, [⟨5, "agentA"⟩, ⟨6, "agentB"⟩]⟩, some 5⟩
      ⟨2, [⟨5, "agentA"⟩, ⟨6, "agentB"⟩]⟩ 1 (by decide) 5 rfl rfl (by decide)
      (by decide)

/-- Claim C8 (amended): each forwarded request's callback is resolved at
most once — a matching response and the 30-second timeout can never both
fire because the pending entry is deleted before either callback path runs;
and when the automation channel never disconnects, exactly one of them
resolves it (the armed timer event eventually occurs while the process is
alive).  The claim's parenthetical is wrong, however: when the channel
disconnects with requests outstanding, the host process exits and the
callbacks of those requests are never invoked at all — neither path runs. -/
theorem correlation_never_both_alive_exactly_once :
    (∀ (es : List HostEvent) (id : String), forwardCount es id ≤ 1 →
      resolutionCount (corrRun corrInit es) id ≤ 1) ∧
    (∀ (es1 a b : List HostEvent) (id : String),
      forwardCount (es1 ++ [.forward id] ++ (a ++ [.timerFire id] ++ b)) id ≤ 1 →
      HostEvent.channelEof ∉ es1 ++ [.forward id] ++ (a ++ [.timerFire id] ++ b) →
      resolutionCount
        (corrRun corrInit (es1 ++ [.forward id] ++ (a ++ [.timerFire id] ++ b))) id = 1) :=
  ⟨corr_at_most_once, corr_eventually_resolved⟩

/-- Witness for the amended C8: one forwarded request whose timer fires is
resolved exactly once. -/
theorem correlation_never_both_alive_exactly_once_witness :
    resolutionCount (corrRun corrInit [.forward "a", .timerFire "a"]) "a" = 1 :=
  correlation_never_both_alive_exactly_once.2 [] [] [] "a" (by decide) (by decide)

/-- Counterexample to claim C8 as stated: a request is forwarded, then the
automation channel disconnects (the host exits); even though a matching
response and the timeout event both occur afterwards, the callback is never
resolved — zero resolutions, refuting "never neither". -/
theorem correlation_disconnect_never_resolves :
    resolutionCount (corrRun corrInit
      [.forward "a", .channelEof, .extResponse "a" true, .timerFire "a"]) "a" = 0 := by
  decide


end Claudezilla
